import Mathlib

/-!
Verification development for the go-bdfs Baidu Pan CLI client.

The definitions below are a shallow embedding of the Go sources under
`pan/` (and the `Walk`/`WalkRecursive` code shown in the repository
README).  Pure functions become Lean functions; stateful code threads its
state explicitly; network interaction is modelled by passing the remote's
responses as arguments; `error` returns become `Except`/sum types whose
constructors mirror the distinct `return` sites of the Go code.
Timestamps are modelled as integer seconds, with `0` playing the role of
Go's zero `time.Time` (`IsZero`).  MD5 (Go's `crypto/md5`, an external
library) is modelled as an abstract hash function parameter.
-/

/-- Embeds `TokenResponse` from `pan/utils.go` (the fields the client
reads; `expires_in` is a JSON integer). -/
structure TokenResponse where
  accessToken : String
  refreshToken : String
  expiresIn : Int
  uid : String
deriving DecidableEq

/-- The zero value of `TokenResponse`, as produced by `&TokenResponse{}`
in `requestToken` for the two keep-polling error codes. -/
def emptyTokenResponse : TokenResponse :=
  { accessToken := "", refreshToken := "", expiresIn := 0, uid := "" }

/-- Embeds `DeviceCodeResponse` from `pan/utils.go`. -/
structure DeviceCodeResponse where
  deviceCode : String
  userCode : String
  verificationURL : String
  expiresIn : Nat
  interval : Nat
deriving DecidableEq

/-- Embeds `GetDeviceCodeForPoll` from `pan/utils.go`: it ignores the
advertised device-code session entirely and returns hardcoded defaults
`Interval = 5`, `ExpiresIn = 1800` (the other fields keep Go zero
values). -/
def GetDeviceCodeForPoll (deviceCode : String) : DeviceCodeResponse :=
  { deviceCode := deviceCode
    userCode := ""
    verificationURL := ""
    expiresIn := 1800
    interval := 5 }

/-- One HTTP response of the token endpoint as seen by `requestToken`:
its status code, the `error` field of the JSON body (relevant on non-200
statuses), and the parsed `TokenResponse` body (`none` models a JSON
unmarshal failure on a 200 response). -/
structure TokenHTTP where
  status : Nat
  errorField : String
  body : Option TokenResponse
deriving DecidableEq

/-- Distinct error returns of `requestToken` in `pan/utils.go`, as
structured values (Go formats them into error strings). -/
inductive ReqTokenError where
  | requestFailed (status : Nat) (errorField : String)
  | parseFailed
deriving DecidableEq

/-- Embeds `requestToken` from `pan/utils.go`: a non-200 status is an
error unless it is exactly 400 with `error` field `authorization_pending`
or `slow_down`, in which case an empty `TokenResponse` is returned so
that polling continues; a 200 response yields its parsed body. -/
def requestToken (r : TokenHTTP) : Except ReqTokenError TokenResponse :=
  if r.status ≠ 200 then
    if r.status = 400 then
      if r.errorField = "authorization_pending" then Except.ok emptyTokenResponse
      else if r.errorField = "slow_down" then Except.ok emptyTokenResponse
      else Except.error (.requestFailed r.status r.errorField)
    else Except.error (.requestFailed r.status r.errorField)
  else
    match r.body with
    | none => Except.error .parseFailed
    | some t => Except.ok t

/-- Outcome of the `PollForToken` loop.  Each constructor carries the
number of token requests issued so far and the elapsed seconds
(`requests` counts calls to `requestToken`).  `outOfFuel` is a modelling
artifact of the bounded recursion; `pollLoop_no_outOfFuel` shows it is
unreachable for the fuel `PollForToken` supplies. -/
inductive PollOutcome where
  | token (t : TokenResponse) (requests : Nat) (elapsed : Nat)
  | expired (requests : Nat) (elapsed : Nat)
  | fatal (e : ReqTokenError) (requests : Nat) (elapsed : Nat)
  | outOfFuel (requests : Nat) (elapsed : Nat)
deriving DecidableEq

/-- Embeds the `for` loop of `PollForToken` in `pan/utils.go`.
`responses i` is the token endpoint's reply to the `i`-th poll; `now`
is seconds since the loop started (each iteration sleeps `interval`
seconds; request latency is idealised to zero).  The loop first checks
whether `now` has passed `timeout`, then requests a token; a request
error is fatal, a non-empty access token ends the loop, an empty one
sleeps and retries.  The structural `fuel` only bounds the recursion. -/
def pollLoop (responses : Nat → TokenHTTP) (interval timeout : Nat) :
    Nat → Nat → Nat → PollOutcome
  | fuel, i, now =>
    if timeout < now then .expired i now
    else
      match fuel with
      | 0 => .outOfFuel i now
      | fuel + 1 =>
        match requestToken (responses i) with
        | .error e => .fatal e (i + 1) now
        | .ok t =>
          if t.accessToken ≠ "" then .token t (i + 1) now
          else pollLoop responses interval timeout fuel (i + 1) (now + interval)

/-- Embeds `PollForToken` from `pan/utils.go`: the poll interval and the
timeout come from `GetDeviceCodeForPoll` (not from the advertised
device-code session, which `PollForToken` never receives); an interval
of 0 defaults to 5.  The fuel `timeout + 2` never runs out because the
interval is positive (`pollLoop_no_outOfFuel`). -/
def PollForToken (deviceCode : String) (responses : Nat → TokenHTTP) : PollOutcome :=
  let initialResp := GetDeviceCodeForPoll deviceCode
  let interval := if initialResp.interval = 0 then 5 else initialResp.interval
  let timeout := initialResp.expiresIn
  pollLoop responses interval timeout (timeout + 2) 0 0

/-- The fuel of `pollLoop` is semantically inert: as long as the fuel
times the interval exceeds the remaining time, `outOfFuel` is never
returned. -/
theorem pollLoop_no_outOfFuel (responses : Nat → TokenHTTP) (interval timeout : Nat) :
    ∀ fuel i now, timeout < now + fuel * interval →
      ∀ j m, pollLoop responses interval timeout fuel i now ≠ .outOfFuel j m := by
  intro fuel
  induction fuel with
  | zero =>
    intro i now h j m
    simp only [Nat.zero_mul, Nat.add_zero] at h
    simp [pollLoop, h]
  | succ n ih =>
    intro i now h j m
    rw [pollLoop]
    by_cases hlt : timeout < now
    · simp [hlt]
    · simp only [hlt, if_false]
      match requestToken (responses i) with
      | .error e => simp
      | .ok t =>
        by_cases ht : t.accessToken ≠ ""
        · simp [ht]
        · simp only [ht, if_false]
          apply ih
          have : now + (n + 1) * interval = now + interval + n * interval := by ring
          omega

/-- A record's expiry state, embedding `IsTokenExpired` from
`pan/utils.go`.  `tokenCreatedAt` and `now` are Unix seconds, with `0`
modelling Go's zero `time.Time` (`IsZero`); `expiresIn` is the stored
`expires_in` seconds. -/
def IsTokenExpired (tokenCreatedAt expiresIn now : Int) : Bool :=
  if tokenCreatedAt = 0 ∨ expiresIn = 0 then true
  else
    let expirationTime := tokenCreatedAt + expiresIn
    let twoDaysBefore := now + 48 * 3600
    decide (expirationTime < now) || decide (expirationTime < twoDaysBefore)

/-- A device-code session that advertises `poll_interval_seconds = 5` and
`expires_in_seconds = 10`, as in the spec's poll-loop scenario. -/
def advertisedShortSession : DeviceCodeResponse :=
  { deviceCode := "dc-short"
    userCode := "uc"
    verificationURL := "https://openapi.baidu.com/device"
    expiresIn := 10
    interval := 5 }

/-- A token endpoint that answers every poll with HTTP 400
`authorization_pending`. -/
def allPendingResponses : Nat → TokenHTTP :=
  fun _ => { status := 400, errorField := "authorization_pending", body := none }

set_option maxRecDepth 8000 in
/-- C1: failing input.  For the session advertising interval 5 and expiry
10 seconds, with every poll answered `authorization_pending`,
`PollForToken` does NOT stop at or shortly after 10 seconds with at most
3 requests: since `GetDeviceCodeForPoll` discards the advertised session
and hardcodes interval 5 and expiry 1800, the loop issues 361 token
requests and reports the device code expired only after 1805 seconds. -/
theorem C1_pollForToken_ignores_advertised_expiry :
    PollForToken advertisedShortSession.deviceCode allPendingResponses
      = .expired 361 1805 ∧ ¬ (361 ≤ 3) := by
  constructor
  · decide
  · decide

/-- C3: `IsTokenExpired` is a pure function of the loaded record and the
current time; it returns true when `created_at` or `expires_in` is zero,
true when the deadline `created_at + expires_in` is in the past, true
when the deadline lies within the next 48 hours, and false when the
deadline is more than 48 hours in the future. -/
theorem C3_isTokenExpired_characterization (createdAt expiresIn now : Int) :
    ((createdAt = 0 ∨ expiresIn = 0) → IsTokenExpired createdAt expiresIn now = true) ∧
    (createdAt ≠ 0 → expiresIn ≠ 0 → createdAt + expiresIn < now →
      IsTokenExpired createdAt expiresIn now = true) ∧
    (createdAt ≠ 0 → expiresIn ≠ 0 → createdAt + expiresIn < now + 48 * 3600 →
      IsTokenExpired createdAt expiresIn now = true) ∧
    (createdAt ≠ 0 → expiresIn ≠ 0 → now + 48 * 3600 < createdAt + expiresIn →
      IsTokenExpired createdAt expiresIn now = false) := by
  refine ⟨fun h => by simp [IsTokenExpired, h], fun h1 h2 h3 => ?_, fun h1 h2 h3 => ?_,
    fun h1 h2 h3 => ?_⟩
  · simp only [IsTokenExpired, h1, h2, or_self, if_false, Bool.or_eq_true, decide_eq_true_eq]
    omega
  · simp only [IsTokenExpired, h1, h2, or_self, if_false, Bool.or_eq_true, decide_eq_true_eq]
    omega
  · simp only [IsTokenExpired, h1, h2, or_self, if_false, Bool.or_eq_false_iff,
      decide_eq_false_iff_not, not_lt]
    omega

/-- Witness for C3 at concrete inputs: a record with zero `created_at`
is expired; a deadline in the past is expired; a deadline inside the
next 48 hours is expired; a deadline more than 48 hours ahead is not. -/
theorem C3_isTokenExpired_witness :
    IsTokenExpired 0 3600 1000 = true ∧
    IsTokenExpired 100 50 1000 = true ∧
    IsTokenExpired 1000 3600 2000 = true ∧
    IsTokenExpired 1000 1000000 2000 = false :=
  ⟨(C3_isTokenExpired_characterization 0 3600 1000).1 (Or.inl rfl),
   (C3_isTokenExpired_characterization 100 50 1000).2.1 (by decide) (by decide) (by decide),
   (C3_isTokenExpired_characterization 1000 3600 2000).2.2.1 (by decide) (by decide) (by decide),
   (C3_isTokenExpired_characterization 1000 1000000 2000).2.2.2 (by decide) (by decide) (by decide)⟩

/-- C4: counterexample to the claim as stated.  A token-endpoint response
whose `error` field is `authorization_pending` but whose HTTP status is
500 (not 400) IS treated as a failure by `requestToken`: it returns an
error, not an empty token, because the keep-polling branch is guarded by
`StatusCode == http.StatusBadRequest`. -/
theorem C4_counterexample :
    requestToken { status := 500, errorField := "authorization_pending", body := none }
      = Except.error (.requestFailed 500 "authorization_pending") ∧
    requestToken { status := 500, errorField := "authorization_pending", body := none }
      ≠ Except.ok emptyTokenResponse := by
  refine ⟨rfl, fun h => ?_⟩
  exact Except.noConfusion h

/-- C4 (amended): during device-flow polling, a token-endpoint response
with HTTP status 400 whose `error` field is `authorization_pending` or
`slow_down` is not a failure — `requestToken` returns the empty token and
the poll loop continues with the next iteration; every other non-success
HTTP response is fatal and is returned as an error. -/
theorem C4_pending_and_slow_down_keep_polling (status : Nat) (errorField : String)
    (body : Option TokenResponse) (hne : status ≠ 200) :
    ((status = 400 ∧ (errorField = "authorization_pending" ∨ errorField = "slow_down")) →
      requestToken { status := status, errorField := errorField, body := body }
        = Except.ok emptyTokenResponse) ∧
    (¬ (status = 400 ∧ (errorField = "authorization_pending" ∨ errorField = "slow_down")) →
      requestToken { status := status, errorField := errorField, body := body }
        = Except.error (.requestFailed status errorField)) ∧
    (∀ (responses : Nat → TokenHTTP) (interval timeout fuel i now : Nat),
      now ≤ timeout → requestToken (responses i) = Except.ok emptyTokenResponse →
      pollLoop responses interval timeout (fuel + 1) i now
        = pollLoop responses interval timeout fuel (i + 1) (now + interval)) := by
  refine ⟨fun ⟨h400, hf⟩ => ?_, fun hnot => ?_, fun responses interval timeout fuel i now hle hreq => ?_⟩
  · rcases hf with hf | hf <;> simp [requestToken, hne, h400, hf]
  · by_cases h400 : status = 400
    · have hf1 : errorField ≠ "authorization_pending" := by
        intro h; exact hnot ⟨h400, Or.inl h⟩
      have hf2 : errorField ≠ "slow_down" := by
        intro h; exact hnot ⟨h400, Or.inr h⟩
      simp [requestToken, hne, h400, hf1, hf2]
    · simp [requestToken, hne, h400]
  · rw [pollLoop]
    have hlt : ¬ timeout < now := by omega
    simp [hlt, hreq, emptyTokenResponse]

/-- Witness for C4 (amended) at concrete inputs: a 400/`slow_down`
response continues the poll with an empty token, while a 403 response is
fatal. -/
theorem C4_pending_and_slow_down_keep_polling_witness :
    requestToken { status := 400, errorField := "slow_down", body := none }
      = Except.ok emptyTokenResponse ∧
    requestToken { status := 403, errorField := "forbidden", body := none }
      = Except.error (.requestFailed 403 "forbidden") :=
  ⟨(C4_pending_and_slow_down_keep_polling 400 "slow_down" none (by decide)).1
      ⟨rfl, Or.inr rfl⟩,
   (C4_pending_and_slow_down_keep_polling 403 "forbidden" none (by decide)).2.1
      (by decide)⟩

/-- The token-related fields of `Client` in `pan/utils.go`
(`accessToken`, `refreshToken`, `expiresIn`, `uid`, `tokenCreatedAt`). -/
structure ClientTokenState where
  accessToken : String
  refreshToken : String
  expiresIn : Int
  uid : String
  tokenCreatedAt : Int
deriving DecidableEq

/-- Embeds `TokenFile` from `pan/utils.go`: the persisted credential
record. -/
structure TokenFileRecord where
  accessToken : String
  refreshToken : String
  expiresIn : Int
  uid : String
  createdAt : Int
deriving DecidableEq

/-- Distinct error returns of `RefreshToken` and `SaveTokens` in
`pan/utils.go`, as structured values. -/
inductive RefreshError where
  | noRefreshToken
  | transportError (msg : String)
  | httpError (status : Nat)
  | parseError
  | emptyAccessToken
  | noAccessTokenToSave
  | writeFailed
deriving DecidableEq

deriving instance DecidableEq for Except

/-- Result of a refresh/save call: the returned error (if any), the
client's in-memory token fields afterwards, and the persisted record
afterwards. -/
structure RefreshResult where
  outcome : Except RefreshError Unit
  client : ClientTokenState
  persisted : Option TokenFileRecord
deriving DecidableEq

/-- Embeds `SaveTokens` from `pan/utils.go`: refuses an empty access
token; otherwise builds the record with `CreatedAt = now`, updates the
client's `tokenCreatedAt` BEFORE attempting the file write (so the
in-memory time changes even if the write then fails), and replaces the
persisted record only when the write succeeds (`writeOk` models whether
`os.WriteFile` succeeds). -/
def SaveTokens (c : ClientTokenState) (now : Int) (writeOk : Bool)
    (persisted : Option TokenFileRecord) : RefreshResult :=
  if c.accessToken = "" then ⟨.error .noAccessTokenToSave, c, persisted⟩
  else
    let record : TokenFileRecord :=
      ⟨c.accessToken, c.refreshToken, c.expiresIn, c.uid, now⟩
    let c' := { c with tokenCreatedAt := now }
    if writeOk then ⟨.ok (), c', some record⟩
    else ⟨.error .writeFailed, c', persisted⟩

/-- One HTTP interaction of the refresh token exchange. -/
inductive RefreshHTTP where
  | transportError (msg : String)
  | response (status : Nat) (body : Option TokenResponse)
deriving DecidableEq

/-- Embeds `RefreshToken` from `pan/utils.go`: requires a refresh token;
a transport error, non-200 status, unparsable body, or empty access
token in the response is an error leaving the client untouched; on a
successful exchange the in-memory fields are overwritten FIRST and then
`SaveTokens` persists the new record. -/
def RefreshToken (c : ClientTokenState) (persisted : Option TokenFileRecord)
    (now : Int) (resp : RefreshHTTP) (writeOk : Bool) : RefreshResult :=
  if c.refreshToken = "" then ⟨.error .noRefreshToken, c, persisted⟩
  else
    match resp with
    | .transportError m => ⟨.error (.transportError m), c, persisted⟩
    | .response status body =>
      if status ≠ 200 then ⟨.error (.httpError status), c, persisted⟩
      else
        match body with
        | none => ⟨.error .parseError, c, persisted⟩
        | some tok =>
          if tok.accessToken = "" then ⟨.error .emptyAccessToken, c, persisted⟩
          else
            let c' := { c with
              accessToken := tok.accessToken
              refreshToken := tok.refreshToken
              expiresIn := tok.expiresIn
              uid := tok.uid }
            SaveTokens c' now writeOk persisted

/-- A concrete pre-refresh client state used in the C6 counterexample. -/
def c6OldClient : ClientTokenState :=
  { accessToken := "oldAccess"
    refreshToken := "oldRefresh"
    expiresIn := 100
    uid := "u1"
    tokenCreatedAt := 10 }

/-- The persisted record matching `c6OldClient`. -/
def c6OldRecord : TokenFileRecord :=
  { accessToken := "oldAccess"
    refreshToken := "oldRefresh"
    expiresIn := 100
    uid := "u1"
    createdAt := 10 }

/-- C6: counterexample to the claim as stated.  When the token exchange
succeeds (HTTP 200 with a fresh non-empty token) but persisting the new
record fails (`os.WriteFile` error), `RefreshToken` returns an error AND
the previously held in-memory record has nevertheless been replaced —
the claim that an erroring `RefreshToken` leaves the in-memory record
unchanged is false. -/
theorem C6_counterexample :
    (RefreshToken c6OldClient (some c6OldRecord) 50
        (.response 200 (some ⟨"newAccess", "newRefresh", 2592000, "u2"⟩)) false).outcome
      = .error .writeFailed ∧
    (RefreshToken c6OldClient (some c6OldRecord) 50
        (.response 200 (some ⟨"newAccess", "newRefresh", 2592000, "u2"⟩)) false).client
      ≠ c6OldClient := by
  refine ⟨rfl, ?_⟩
  decide

/-- C6 (amended): `RefreshToken` leaves both the in-memory and the
persisted record unchanged whenever it fails BEFORE a new token is
obtained (missing refresh token, transport error, non-200 status,
unparsable body, empty access token); when the exchange succeeds and the
write succeeds, both records are replaced with the newly issued tokens
(in-memory `tokenCreatedAt` and persisted `created_at` set to now); when
the exchange succeeds but the write fails, an error is returned, the
persisted record is unchanged, but the in-memory record has already been
replaced. -/
theorem C6_refresh_state_transitions (c : ClientTokenState)
    (persisted : Option TokenFileRecord) (now : Int) (writeOk : Bool) :
    (c.refreshToken = "" → ∀ resp,
      RefreshToken c persisted now resp writeOk = ⟨.error .noRefreshToken, c, persisted⟩) ∧
    (∀ m, c.refreshToken ≠ "" →
      RefreshToken c persisted now (.transportError m) writeOk
        = ⟨.error (.transportError m), c, persisted⟩) ∧
    (∀ status body, c.refreshToken ≠ "" → status ≠ 200 →
      RefreshToken c persisted now (.response status body) writeOk
        = ⟨.error (.httpError status), c, persisted⟩) ∧
    (c.refreshToken ≠ "" →
      RefreshToken c persisted now (.response 200 none) writeOk
        = ⟨.error .parseError, c, persisted⟩) ∧
    (∀ tok, c.refreshToken ≠ "" → tok.accessToken = "" →
      RefreshToken c persisted now (.response 200 (some tok)) writeOk
        = ⟨.error .emptyAccessToken, c, persisted⟩) ∧
    (∀ tok, c.refreshToken ≠ "" → tok.accessToken ≠ "" → writeOk = true →
      RefreshToken c persisted now (.response 200 (some tok)) writeOk
        = ⟨.ok (), ⟨tok.accessToken, tok.refreshToken, tok.expiresIn, tok.uid, now⟩,
            some ⟨tok.accessToken, tok.refreshToken, tok.expiresIn, tok.uid, now⟩⟩) ∧
    (∀ tok, c.refreshToken ≠ "" → tok.accessToken ≠ "" → writeOk = false →
      RefreshToken c persisted now (.response 200 (some tok)) writeOk
        = ⟨.error .writeFailed,
            ⟨tok.accessToken, tok.refreshToken, tok.expiresIn, tok.uid, now⟩, persisted⟩) := by
  refine ⟨fun h resp => by simp [RefreshToken, h],
    fun m h => by simp [RefreshToken, h],
    fun status body h hs => by simp [RefreshToken, h, hs],
    fun h => by simp [RefreshToken, h],
    fun tok h ht => by simp [RefreshToken, h, ht],
    fun tok h ht hw => by simp [RefreshToken, SaveTokens, h, ht, hw],
    fun tok h ht hw => by simp [RefreshToken, SaveTokens, h, ht, hw]⟩

/-- Witness for C6 (amended) at concrete inputs: an empty refresh token
fails with the state unchanged, and a successful exchange with a
successful write replaces both records. -/
theorem C6_refresh_state_transitions_witness :
    RefreshToken ⟨"a", "", 5, "u", 3⟩ none 50 (.transportError "x") true
      = ⟨.error .noRefreshToken, ⟨"a", "", 5, "u", 3⟩, none⟩ ∧
    RefreshToken c6OldClient (some c6OldRecord) 50
        (.response 200 (some ⟨"newAccess", "newRefresh", 2592000, "u2"⟩)) true
      = ⟨.ok (), ⟨"newAccess", "newRefresh", 2592000, "u2", 50⟩,
          some ⟨"newAccess", "newRefresh", 2592000, "u2", 50⟩⟩ :=
  ⟨(C6_refresh_state_transitions ⟨"a", "", 5, "u", 3⟩ none 50 true).1 rfl (.transportError "x"),
   (C6_refresh_state_transitions c6OldClient (some c6OldRecord) 50 true).2.2.2.2.2.1
      ⟨"newAccess", "newRefresh", 2592000, "u2"⟩ (by decide) (by decide) rfl⟩

/-- The successive byte chunks read by the loop of `CalculateSliceMD5` in
`pan/utils.go`: each `file.Read(buffer)` fills at most `sliceSize` bytes
from the remaining file, the loop stops when a read returns 0 bytes.
The first argument is structural fuel; with fuel `file.length` it is
never exhausted for a positive slice size (each iteration consumes at
least one byte). -/
def chunksGo (sliceSize : Nat) : Nat → List Nat → List (List Nat)
  | _, [] => []
  | 0, _ :: _ => []
  | n + 1, b :: bs => ((b :: bs).take sliceSize) :: chunksGo sliceSize n (bs.drop (sliceSize - 1))

/-- Embeds `CalculateSliceMD5` from `pan/utils.go`: MD5 over each
successive `sliceSize`-byte chunk of the file.  The file is a byte list;
`md5h` abstracts Go's `crypto/md5` hex digest.  With `sliceSize = 0` the
Go loop's first `Read` into an empty buffer returns 0 bytes and the loop
exits with an empty hash list. -/
def CalculateSliceMD5 (md5h : List Nat → String) (sliceSize : Nat) (file : List Nat) :
    List String :=
  if sliceSize = 0 then []
  else (chunksGo sliceSize file.length file).map md5h

/-- With positive slice size and enough fuel, concatenating the chunks
reconstructs the file exactly (coverage, no gaps, no overlaps). -/
theorem chunksGo_flatten (S : Nat) (hS : 0 < S) :
    ∀ n file, List.length file ≤ n → (chunksGo S n file).flatten = file := by
  intro n
  induction n with
  | zero =>
    intro file h
    have : file = [] := List.eq_nil_of_length_eq_zero (Nat.le_zero.mp h)
    subst this
    simp [chunksGo]
  | succ k ih =>
    intro file h
    match file with
    | [] => simp [chunksGo]
    | b :: bs =>
      have hlen : (bs.drop (S - 1)).length ≤ k := by
        simp only [List.length_drop]
        have : bs.length ≤ k := by simpa using h
        omega
      have hS1 : S - 1 + 1 = S := Nat.succ_pred_eq_of_pos hS
      have hdrop : (b :: bs).drop S = bs.drop (S - 1) := by
        conv_lhs => rw [← hS1]
        rw [List.drop_succ_cons]
      rw [chunksGo, List.flatten_cons, ih _ hlen, ← hdrop, List.take_append_drop]

/-- With positive slice size and enough fuel, the number of chunks is
the ceiling of the file length divided by the slice size. -/
theorem chunksGo_length (S : Nat) (hS : 0 < S) :
    ∀ n file, List.length file ≤ n →
      (chunksGo S n file).length = (List.length file + S - 1) / S := by
  intro n
  induction n with
  | zero =>
    intro file h
    have : file = [] := List.eq_nil_of_length_eq_zero (Nat.le_zero.mp h)
    subst this
    simp only [chunksGo, List.length_nil, Nat.zero_add]
    exact (Nat.div_eq_of_lt (by omega : S - 1 < S)).symm
  | succ k ih =>
    intro file h
    match file with
    | [] =>
      simp only [chunksGo, List.length_nil, Nat.zero_add]
      exact (Nat.div_eq_of_lt (by omega : S - 1 < S)).symm
    | b :: bs =>
      have hlen : (bs.drop (S - 1)).length ≤ k := by
        simp only [List.length_drop]
        have : bs.length ≤ k := by simpa using h
        omega
      rw [chunksGo, List.length_cons, ih _ hlen, List.length_drop, List.length_cons]
      rcases Nat.lt_or_ge bs.length S with hcase | hcase
      · have h1 : bs.length - (S - 1) + S - 1 = S - 1 := by omega
        have h2 : bs.length + 1 + S - 1 = bs.length + 1 * S := by omega
        rw [h1, h2, Nat.add_mul_div_right _ _ hS, Nat.div_eq_of_lt hcase,
          Nat.div_eq_of_lt (by omega : S - 1 < S)]
      · have h1 : bs.length - (S - 1) + S - 1 = bs.length := by omega
        have h2 : bs.length + 1 + S - 1 = bs.length + 1 * S := by omega
        rw [h1, h2, Nat.add_mul_div_right _ _ hS]

/-- With positive slice size and enough fuel, the `i`-th chunk is exactly
the byte range `[i*S, i*S+S)` of the file (truncated at the file end). -/
theorem chunksGo_get (S : Nat) (hS : 0 < S) :
    ∀ n file i, List.length file ≤ n → i < (chunksGo S n file).length →
      (chunksGo S n file).get? i = some ((file.drop (i * S)).take S) := by
  intro n
  induction n with
  | zero =>
    intro file i h hi
    have : file = [] := List.eq_nil_of_length_eq_zero (Nat.le_zero.mp h)
    subst this
    simp [chunksGo] at hi
  | succ k ih =>
    intro file i h hi
    match file with
    | [] => simp [chunksGo] at hi
    | b :: bs =>
      have hlen : (bs.drop (S - 1)).length ≤ k := by
        simp only [List.length_drop]
        have : bs.length ≤ k := by simpa using h
        omega
      match i with
      | 0 => simp [chunksGo]
      | j + 1 =>
        have hj : j < (chunksGo S k (bs.drop (S - 1))).length := by
          rw [chunksGo] at hi
          simpa using hi
        rw [chunksGo]
        simp only [List.get?_cons_succ]
        rw [ih _ j hlen hj, List.drop_drop]
        have hmul : (j + 1) * S = j * S + S := by ring
        have h1 : (j + 1) * S = (j * S + (S - 1)) + 1 := by omega
        have hdrop : (b :: bs).drop ((j + 1) * S) = bs.drop (j * S + (S - 1)) := by
          rw [h1, List.drop_succ_cons]
        rw [hdrop, Nat.add_comm (S - 1) (j * S)]

/-- C2: for every file and positive slice size, `CalculateSliceMD5` is
the hash image of the chunk decomposition (so two runs on the same bytes
yield identical sequences — the embedding is a pure function); it
returns exactly `ceil(size/S)` hashes; hash `i` is the hash of bytes
`[i*S, min((i+1)*S, size))`; the chunks concatenate back to the file
with no gaps or overlaps; every chunk except possibly the last has
length exactly `S`, and every chunk is nonempty and at most `S` long. -/
theorem C2_calculateSliceMD5_slices (md5h : List Nat → String) (S : Nat) (file : List Nat)
    (hS : 0 < S) :
    CalculateSliceMD5 md5h S file = (chunksGo S file.length file).map md5h ∧
    (CalculateSliceMD5 md5h S file).length = (file.length + S - 1) / S ∧
    (∀ i, i < (CalculateSliceMD5 md5h S file).length →
      (CalculateSliceMD5 md5h S file).get? i = some (md5h ((file.drop (i * S)).take S))) ∧
    (chunksGo S file.length file).flatten = file ∧
    (∀ i, i + 1 < (CalculateSliceMD5 md5h S file).length →
      ((file.drop (i * S)).take S).length = S) ∧
    (∀ i, i < (CalculateSliceMD5 md5h S file).length →
      0 < ((file.drop (i * S)).take S).length ∧ ((file.drop (i * S)).take S).length ≤ S) := by
  have hS0 : S ≠ 0 := Nat.pos_iff_ne_zero.mp hS
  have hcalc : CalculateSliceMD5 md5h S file = (chunksGo S file.length file).map md5h := by
    simp [CalculateSliceMD5, hS0]
  have hlen : (CalculateSliceMD5 md5h S file).length = (file.length + S - 1) / S := by
    rw [hcalc, List.length_map, chunksGo_length S hS _ _ le_rfl]
  refine ⟨hcalc, hlen, ?_, chunksGo_flatten S hS _ _ le_rfl, ?_, ?_⟩
  · intro i hi
    rw [hcalc] at hi ⊢
    rw [List.length_map] at hi
    rw [List.get?_map, chunksGo_get S hS _ _ i le_rfl hi]
    rfl
  · intro i hi
    rw [hlen] at hi
    have hdiv : (i + 2) * S ≤ file.length + S - 1 :=
      (Nat.le_div_iff_mul_le hS).mp (by omega)
    have hexp : (i + 2) * S = i * S + 2 * S := by ring
    rw [List.length_take, List.length_drop]
    omega
  · intro i hi
    rw [hlen] at hi
    have hdiv : (i + 1) * S ≤ file.length + S - 1 :=
      (Nat.le_div_iff_mul_le hS).mp (by omega)
    have hexp : (i + 1) * S = i * S + S := by ring
    constructor <;> (rw [List.length_take, List.length_drop]; omega)

/-- A concrete hash stand-in used by the C2 witness. -/
def witnessHash : List Nat → String :=
  fun bs => toString bs

/-- Witness for C2 at a concrete input: the 5-byte file `[1,2,3,4,5]`
with slice size 2 yields the three hashes of `[1,2]`, `[3,4]`, `[5]`,
and the chunks flatten back to the file. -/
theorem C2_calculateSliceMD5_slices_witness :
    CalculateSliceMD5 witnessHash 2 [1, 2, 3, 4, 5]
      = [witnessHash [1, 2], witnessHash [3, 4], witnessHash [5]] ∧
    (CalculateSliceMD5 witnessHash 2 [1, 2, 3, 4, 5]).length = 3 ∧
    (chunksGo 2 5 [1, 2, 3, 4, 5]).flatten = [1, 2, 3, 4, 5] := by
  have h := C2_calculateSliceMD5_slices witnessHash 2 [1, 2, 3, 4, 5] (by decide)
  refine ⟨?_, ?_, ?_⟩
  · rw [h.1]
    rfl
  · simpa using h.2.1
  · exact h.2.2.2.1

/-- Embeds `RenameRequest` from `pan/rename.go`. -/
structure RenameRequest where
  path : String
  newName : String
deriving DecidableEq

/-- Embeds `RenameInfo` from `pan/rename.go` (per-item result). -/
structure RenameInfo where
  path : String
  errno : Int
deriving DecidableEq

/-- Embeds `RenameResponse` from `pan/rename.go`. -/
structure RenameResponse where
  errno : Int
  info : List RenameInfo
  taskID : Int
  requestID : Int
deriving DecidableEq

/-- Embeds `MoveRequest` from `pan/move.go`. -/
structure MoveRequest where
  path : String
  dest : String
  newName : String
deriving DecidableEq

/-- Embeds `MoveInfo` from `pan/move.go` (per-item result). -/
structure MoveInfo where
  path : String
  dest : String
  newName : String
  errno : Int
deriving DecidableEq

/-- Embeds `MoveResponse` from `pan/move.go`. -/
structure MoveResponse where
  errno : Int
  info : List MoveInfo
  taskID : Int
  requestID : Int
deriving DecidableEq

/-- Embeds `CopyRequest` from `pan/move.go` (copy section). -/
structure CopyRequest where
  path : String
  dest : String
  newName : String
deriving DecidableEq

/-- Embeds `CopyInfo` from `pan/move.go` (copy section). -/
structure CopyInfo where
  path : String
  dest : String
  newName : String
  errno : Int
deriving DecidableEq

/-- Embeds `CopyResponse` from `pan/move.go` (copy section). -/
structure CopyResponse where
  errno : Int
  info : List CopyInfo
  taskID : Int
  requestID : Int
deriving DecidableEq

/-- Embeds `DeleteEntry` from `pan/move.go` (delete section). -/
structure DeleteEntry where
  path : String
  errno : Int
deriving DecidableEq

/-- Embeds `DeleteResponse` from `pan/move.go` (delete section). -/
structure DeleteResponse where
  errno : Int
  requestID : Int
  list : List DeleteEntry
deriving DecidableEq

/-- Embeds `GetRenameErrorMessage` from `pan/rename.go`. -/
def GetRenameErrorMessage (errno : Int) : String :=
  if errno = 0 then "Success"
  else if errno = 2 then "Parameters error"
  else if errno = 3 then "User permission error"
  else if errno = 4 then "Request source error"
  else if errno = 12 then "Operation not allowed or path error"
  else if errno = -9 then "File does not exist"
  else if errno = 111 then "Another asynchronous task is currently executing"
  else if errno = -7 then "Invalid file name"
  else if errno = 108 then "Path error, path does not exist"
  else if errno = 110 then "Target path already exists"
  else if errno = 112 then "Same file already exists in the same directory"
  else if errno = 113 then "File or directory name contains forbidden words"
  else if errno = 114 then "Path too long"
  else if errno = 115 then "Target directory does not exist"
  else if errno = 116 then "Insufficient disk space"
  else if errno = 117 then "File too large"
  else if errno = 31001 then "User has been banned"
  else if errno = 31026 then "File contains illegal content"
  else "Unknown error code: " ++ toString errno

/-- Embeds `GetMoveErrorMessage` from `pan/move.go` (identical table). -/
def GetMoveErrorMessage (errno : Int) : String :=
  GetRenameErrorMessage errno

/-- Embeds `GetCopyErrorMessage` from `pan/move.go` (identical table). -/
def GetCopyErrorMessage (errno : Int) : String :=
  GetRenameErrorMessage errno

/-- Embeds `GetErrorMessage` from `pan/move.go` (delete section): the
same table without the entries for 12, -9, 111 and -7. -/
def GetErrorMessage (errno : Int) : String :=
  if errno = 0 then "Success"
  else if errno = 2 then "Parameters error"
  else if errno = 3 then "User permission error"
  else if errno = 4 then "Request source error"
  else if errno = 108 then "Path error, path does not exist"
  else if errno = 110 then "Target path already exists"
  else if errno = 112 then "Same file already exists in the same directory"
  else if errno = 113 then "File or directory name contains forbidden words"
  else if errno = 114 then "Path too long"
  else if errno = 115 then "Target directory does not exist"
  else if errno = 116 then "Insufficient disk space"
  else if errno = 117 then "File too large"
  else if errno = 31001 then "User has been banned"
  else if errno = 31026 then "File contains illegal content"
  else "Unknown error code: " ++ toString errno

/-- One HTTP interaction of a filemanager batch call, parameterised by
the parsed response type (`none` models a JSON unmarshal failure). -/
inductive BatchHTTP (α : Type) where
  | transportError (msg : String)
  | response (status : Nat) (parsed : Option α)
deriving DecidableEq

/-- The distinct return sites of the batch operations
(`MoveFiles`/`CopyFiles`/`RenameFiles`/`RemoveFiles`).  `indexPanic`
models the Go runtime index-out-of-range panic raised when the response
`Info` array is longer than the request list and an out-of-range item
carries a non-zero errno. -/
inductive BatchOutcome where
  | ok
  | errNoToken
  | errEmptyList
  | errTransport (msg : String)
  | errHTTP (status : Nat)
  | errParse
  | errAPI (errno : Int) (msg : String)
  | errItems (failed : List String)
  | indexPanic
deriving DecidableEq

/-- The failure-description string built for one failed rename item
(`fmt.Sprintf("%s -> %s (error code: %d)", ...)` in `pan/rename.go`). -/
def renameFailMsg (req : RenameRequest) (errno : Int) : String :=
  req.path ++ " -> " ++ req.newName ++ " (error code: " ++ toString errno ++ ")"

/-- The failure-description string built for one failed move item
(`fmt.Sprintf("%s -> %s/%s (error code: %d)", ...)` in `pan/move.go`). -/
def moveFailMsg (req : MoveRequest) (errno : Int) : String :=
  req.path ++ " -> " ++ req.dest ++ "/" ++ req.newName ++
    " (error code: " ++ toString errno ++ ")"

/-- The failure-description string built for one failed copy item
(`fmt.Sprintf("%s -> %s/%s (error code: %d)", ...)` in `pan/move.go`). -/
def copyFailMsg (req : CopyRequest) (errno : Int) : String :=
  req.path ++ " -> " ++ req.dest ++ "/" ++ req.newName ++
    " (error code: " ++ toString errno ++ ")"

/-- The failure-description string built for one failed delete entry
(`fmt.Sprintf("%s (error code: %d)", ...)` in `pan/move.go`). -/
def deleteFailMsg (path : String) (errno : Int) : String :=
  path ++ " (error code: " ++ toString errno ++ ")"

/-- Embeds the failure-aggregation loop of `RenameFiles`: for each
response item with non-zero errno the corresponding request is fetched
by position (`renameRequests[i]`); `none` models the index-out-of-range
panic Go raises when `i` exceeds the request list. -/
def collectRenameFailures (reqs : List RenameRequest) : Nat → List RenameInfo →
    Option (List String)
  | _, [] => some []
  | i, ri :: rest =>
    if ri.errno ≠ 0 then
      match reqs.get? i with
      | none => none
      | some req =>
        match collectRenameFailures reqs (i + 1) rest with
        | none => none
        | some tail => some (renameFailMsg req ri.errno :: tail)
    else collectRenameFailures reqs (i + 1) rest

/-- Embeds the failure-aggregation loop of `MoveFiles` (same shape,
move message format). -/
def collectMoveFailures (reqs : List MoveRequest) : Nat → List MoveInfo →
    Option (List String)
  | _, [] => some []
  | i, mi :: rest =>
    if mi.errno ≠ 0 then
      match reqs.get? i with
      | none => none
      | some req =>
        match collectMoveFailures reqs (i + 1) rest with
        | none => none
        | some tail => some (moveFailMsg req mi.errno :: tail)
    else collectMoveFailures reqs (i + 1) rest

/-- Embeds the failure-aggregation loop of `CopyFiles` (same shape,
copy message format). -/
def collectCopyFailures (reqs : List CopyRequest) : Nat → List CopyInfo →
    Option (List String)
  | _, [] => some []
  | i, ci :: rest =>
    if ci.errno ≠ 0 then
      match reqs.get? i with
      | none => none
      | some req =>
        match collectCopyFailures reqs (i + 1) rest with
        | none => none
        | some tail => some (copyFailMsg req ci.errno :: tail)
    else collectCopyFailures reqs (i + 1) rest

/-- Embeds the failure-aggregation loop of `RemoveFiles`: the failure
description uses the entry's own path from the response (no positional
indexing into the request list). -/
def collectDeleteFailures : List DeleteEntry → List String
  | [] => []
  | e :: rest =>
    if e.errno ≠ 0 then deleteFailMsg e.path e.errno :: collectDeleteFailures rest
    else collectDeleteFailures rest

/-- Embeds `RenameFiles` from `pan/rename.go` (the network send modelled
by the `resp` argument): empty token and empty request list are
rejected; a transport error, non-200 status or unparsable body is an
error; a non-zero top-level errno is an API error; otherwise per-item
failures are aggregated and reported together, and success is returned
when there are none. -/
def RenameFiles (renameRequests : List RenameRequest) (accessToken : String)
    (resp : BatchHTTP RenameResponse) : BatchOutcome :=
  if accessToken = "" then .errNoToken
  else if renameRequests.isEmpty then .errEmptyList
  else
    match resp with
    | .transportError m => .errTransport m
    | .response status parsed =>
      if status ≠ 200 then .errHTTP status
      else
        match parsed with
        | none => .errParse
        | some r =>
          if r.errno ≠ 0 then .errAPI r.errno (GetRenameErrorMessage r.errno)
          else
            match collectRenameFailures renameRequests 0 r.info with
            | none => .indexPanic
            | some [] => .ok
            | some failed => .errItems failed

/-- Embeds `MoveFiles` from `pan/move.go` (same structure as
`RenameFiles` with the move response and message format). -/
def MoveFiles (moveRequests : List MoveRequest) (accessToken : String)
    (resp : BatchHTTP MoveResponse) : BatchOutcome :=
  if accessToken = "" then .errNoToken
  else if moveRequests.isEmpty then .errEmptyList
  else
    match resp with
    | .transportError m => .errTransport m
    | .response status parsed =>
      if status ≠ 200 then .errHTTP status
      else
        match parsed with
        | none => .errParse
        | some r =>
          if r.errno ≠ 0 then .errAPI r.errno (GetMoveErrorMessage r.errno)
          else
            match collectMoveFailures moveRequests 0 r.info with
            | none => .indexPanic
            | some [] => .ok
            | some failed => .errItems failed

/-- Embeds `CopyFiles` from `pan/move.go` (same structure; the success
path additionally prints one message per item, which has no effect on
the returned value). -/
def CopyFiles (copyRequests : List CopyRequest) (accessToken : String)
    (resp : BatchHTTP CopyResponse) : BatchOutcome :=
  if accessToken = "" then .errNoToken
  else if copyRequests.isEmpty then .errEmptyList
  else
    match resp with
    | .transportError m => .errTransport m
    | .response status parsed =>
      if status ≠ 200 then .errHTTP status
      else
        match parsed with
        | none => .errParse
        | some r =>
          if r.errno ≠ 0 then .errAPI r.errno (GetCopyErrorMessage r.errno)
          else
            match collectCopyFailures copyRequests 0 r.info with
            | none => .indexPanic
            | some [] => .ok
            | some failed => .errItems failed

/-- Embeds `RemoveFiles` from `pan/move.go` (delete section): same
structure, with the per-entry aggregation over the response's `list`. -/
def RemoveFiles (filePaths : List String) (accessToken : String)
    (resp : BatchHTTP DeleteResponse) : BatchOutcome :=
  if accessToken = "" then .errNoToken
  else if filePaths.isEmpty then .errEmptyList
  else
    match resp with
    | .transportError m => .errTransport m
    | .response status parsed =>
      if status ≠ 200 then .errHTTP status
      else
        match parsed with
        | none => .errParse
        | some r =>
          if r.errno ≠ 0 then .errAPI r.errno (GetErrorMessage r.errno)
          else
            match collectDeleteFailures r.list with
            | [] => .ok
            | failed => .errItems failed

/-- C7: in a batch whose top-level errno is zero, per-item failures are
aggregated and reported together.  For a batch rename of 3 items where
only item 2 carries a non-zero per-item errno, the returned failure list
is exactly the one entry built from item 2's request (items 1 and 3 are
not reported); when every per-item errno is zero the operation returns
success.  The same holds for the delete batch, whose failure entries are
built from the response entries' own paths. -/
theorem C7_batch_partial_failures (r1 r2 r3 : RenameRequest) (p1 p2 p3 : String)
    (q1 q2 q3 : String) (e : Int) (tok : String) (htok : tok ≠ "") (he : e ≠ 0) :
    RenameFiles [r1, r2, r3] tok
        (.response 200 (some ⟨0, [⟨p1, 0⟩, ⟨p2, e⟩, ⟨p3, 0⟩], 0, 0⟩))
      = .errItems [renameFailMsg r2 e] ∧
    RenameFiles [r1, r2, r3] tok
        (.response 200 (some ⟨0, [⟨p1, 0⟩, ⟨p2, 0⟩, ⟨p3, 0⟩], 0, 0⟩))
      = .ok ∧
    RemoveFiles [q1, q2, q3] tok
        (.response 200 (some ⟨0, 0, [⟨q1, 0⟩, ⟨q2, e⟩, ⟨q3, 0⟩]⟩))
      = .errItems [deleteFailMsg q2 e] ∧
    RemoveFiles [q1, q2, q3] tok
        (.response 200 (some ⟨0, 0, [⟨q1, 0⟩, ⟨q2, 0⟩, ⟨q3, 0⟩]⟩))
      = .ok := by
  refine ⟨?_, ?_, ?_, ?_⟩ <;>
    simp [RenameFiles, RemoveFiles, collectRenameFailures, collectDeleteFailures,
      htok, he, List.get?]

/-- Witness for C7 at concrete inputs: renaming `/a`, `/b`, `/c` where
only `/b` fails with errno 110 reports exactly the `/b` entry, and an
all-zero batch succeeds. -/
theorem C7_batch_partial_failures_witness :
    RenameFiles [⟨"/a", "a2"⟩, ⟨"/b", "b2"⟩, ⟨"/c", "c2"⟩] "tok"
        (.response 200 (some ⟨0, [⟨"/a", 0⟩, ⟨"/b", 110⟩, ⟨"/c", 0⟩], 0, 0⟩))
      = .errItems [renameFailMsg ⟨"/b", "b2"⟩ 110] ∧
    RemoveFiles ["/x", "/y", "/z"] "tok"
        (.response 200 (some ⟨0, 0, [⟨"/x", 0⟩, ⟨"/y", 0⟩, ⟨"/z", 0⟩]⟩))
      = .ok :=
  ⟨(C7_batch_partial_failures ⟨"/a", "a2"⟩ ⟨"/b", "b2"⟩ ⟨"/c", "c2"⟩ "/a" "/b" "/c"
      "/x" "/y" "/z" 110 "tok" (by decide) (by decide)).1,
   (C7_batch_partial_failures ⟨"/a", "a2"⟩ ⟨"/b", "b2"⟩ ⟨"/c", "c2"⟩ "/a" "/b" "/c"
      "/x" "/y" "/z" 110 "tok" (by decide) (by decide)).2.2.2⟩

/-- The rename aggregation loop cannot hit the out-of-range branch when
the remaining info items all index within the request list. -/
theorem collectRenameFailures_bounded (reqs : List RenameRequest) :
    ∀ (info : List RenameInfo) (i : Nat), i + info.length ≤ reqs.length →
      collectRenameFailures reqs i info ≠ none := by
  intro info
  induction info with
  | nil => intro i h; simp [collectRenameFailures]
  | cons ri rest ih =>
    intro i h
    rw [collectRenameFailures]
    have hrest : (i + 1) + rest.length ≤ reqs.length := by
      simp only [List.length_cons] at h; omega
    by_cases he : ri.errno ≠ 0
    · rw [if_pos he]
      have hi : reqs.get? i ≠ none := by
        rw [ne_eq, List.get?_eq_none]
        simp only [List.length_cons] at h
        omega
      obtain ⟨req, hreq⟩ := Option.ne_none_iff_exists'.mp hi
      rw [hreq]
      cases hc : collectRenameFailures reqs (i + 1) rest with
      | none => exact absurd hc (ih (i + 1) hrest)
      | some tail => simp
    · rw [if_neg he]
      exact ih (i + 1) hrest

/-- The move aggregation loop cannot hit the out-of-range branch when
the remaining info items all index within the request list. -/
theorem collectMoveFailures_bounded (reqs : List MoveRequest) :
    ∀ (info : List MoveInfo) (i : Nat), i + info.length ≤ reqs.length →
      collectMoveFailures reqs i info ≠ none := by
  intro info
  induction info with
  | nil => intro i h; simp [collectMoveFailures]
  | cons mi rest ih =>
    intro i h
    rw [collectMoveFailures]
    have hrest : (i + 1) + rest.length ≤ reqs.length := by
      simp only [List.length_cons] at h; omega
    by_cases he : mi.errno ≠ 0
    · rw [if_pos he]
      have hi : reqs.get? i ≠ none := by
        rw [ne_eq, List.get?_eq_none]
        simp only [List.length_cons] at h
        omega
      obtain ⟨req, hreq⟩ := Option.ne_none_iff_exists'.mp hi
      rw [hreq]
      cases hc : collectMoveFailures reqs (i + 1) rest with
      | none => exact absurd hc (ih (i + 1) hrest)
      | some tail => simp
    · rw [if_neg he]
      exact ih (i + 1) hrest

/-- The copy aggregation loop cannot hit the out-of-range branch when
the remaining info items all index within the request list. -/
theorem collectCopyFailures_bounded (reqs : List CopyRequest) :
    ∀ (info : List CopyInfo) (i : Nat), i + info.length ≤ reqs.length →
      collectCopyFailures reqs i info ≠ none := by
  intro info
  induction info with
  | nil => intro i h; simp [collectCopyFailures]
  | cons ci rest ih =>
    intro i h
    rw [collectCopyFailures]
    have hrest : (i + 1) + rest.length ≤ reqs.length := by
      simp only [List.length_cons] at h; omega
    by_cases he : ci.errno ≠ 0
    · rw [if_pos he]
      have hi : reqs.get? i ≠ none := by
        rw [ne_eq, List.get?_eq_none]
        simp only [List.length_cons] at h
        omega
      obtain ⟨req, hreq⟩ := Option.ne_none_iff_exists'.mp hi
      rw [hreq]
      cases hc : collectCopyFailures reqs (i + 1) rest with
      | none => exact absurd hc (ih (i + 1) hrest)
      | some tail => simp
    · rw [if_neg he]
      exact ih (i + 1) hrest

/-- C9: in `MoveFiles`, `CopyFiles` and `RenameFiles`, per-item failure
aggregation indexes the request list by the position of each entry of
the response's `Info` array; whenever the parsed `Info` array is no
longer than the request list every such index is in bounds, so the
out-of-range branch (`indexPanic`) is unreachable; and the precondition
is required for totality — a response whose `Info` array is longer than
the request list and has a non-zero errno out of range reaches the
out-of-range branch. -/
theorem C9_batch_indexing_in_bounds :
    (∀ (reqs : List MoveRequest) (tok : String) (status : Nat) (r : MoveResponse),
      r.info.length ≤ reqs.length →
      MoveFiles reqs tok (.response status (some r)) ≠ .indexPanic) ∧
    (∀ (reqs : List CopyRequest) (tok : String) (status : Nat) (r : CopyResponse),
      r.info.length ≤ reqs.length →
      CopyFiles reqs tok (.response status (some r)) ≠ .indexPanic) ∧
    (∀ (reqs : List RenameRequest) (tok : String) (status : Nat) (r : RenameResponse),
      r.info.length ≤ reqs.length →
      RenameFiles reqs tok (.response status (some r)) ≠ .indexPanic) ∧
    RenameFiles [⟨"/a", "b"⟩] "tok"
        (.response 200 (some ⟨0, [⟨"/a", 0⟩, ⟨"/x", 5⟩], 0, 0⟩))
      = .indexPanic := by
  refine ⟨?_, ?_, ?_, by decide⟩
  · intro reqs tok status r hle
    have hc := collectMoveFailures_bounded reqs r.info 0 (by omega)
    unfold MoveFiles
    by_cases h1 : tok = ""
    · simp [h1]
    · rw [if_neg h1]
      by_cases h2 : reqs.isEmpty
      · simp [h2]
      · rw [if_neg h2]
        dsimp only
        by_cases h3 : status ≠ 200
        · simp [if_pos h3]
        · rw [if_neg h3]
          by_cases h4 : r.errno ≠ 0
          · simp [if_pos h4]
          · rw [if_neg h4]
            cases hcc : collectMoveFailures reqs 0 r.info with
            | none => exact absurd hcc hc
            | some failed => cases failed <;> simp
  · intro reqs tok status r hle
    have hc := collectCopyFailures_bounded reqs r.info 0 (by omega)
    unfold CopyFiles
    by_cases h1 : tok = ""
    · simp [h1]
    · rw [if_neg h1]
      by_cases h2 : reqs.isEmpty
      · simp [h2]
      · rw [if_neg h2]
        dsimp only
        by_cases h3 : status ≠ 200
        · simp [if_pos h3]
        · rw [if_neg h3]
          by_cases h4 : r.errno ≠ 0
          · simp [if_pos h4]
          · rw [if_neg h4]
            cases hcc : collectCopyFailures reqs 0 r.info with
            | none => exact absurd hcc hc
            | some failed => cases failed <;> simp
  · intro reqs tok status r hle
    have hc := collectRenameFailures_bounded reqs r.info 0 (by omega)
    unfold RenameFiles
    by_cases h1 : tok = ""
    · simp [h1]
    · rw [if_neg h1]
      by_cases h2 : reqs.isEmpty
      · simp [h2]
      · rw [if_neg h2]
        dsimp only
        by_cases h3 : status ≠ 200
        · simp [if_pos h3]
        · rw [if_neg h3]
          by_cases h4 : r.errno ≠ 0
          · simp [if_pos h4]
          · rw [if_neg h4]
            cases hcc : collectRenameFailures reqs 0 r.info with
            | none => exact absurd hcc hc
            | some failed => cases failed <;> simp

/-- Witness for C9 at concrete inputs: a one-item move, copy and rename
with a one-item (failing) response stay clear of the out-of-range
branch. -/
theorem C9_batch_indexing_in_bounds_witness :
    MoveFiles [⟨"/a", "/d", "n"⟩] "tok"
        (.response 200 (some ⟨0, [⟨"/a", "/d", "n", 7⟩], 0, 0⟩)) ≠ .indexPanic ∧
    CopyFiles [⟨"/a", "/d", "n"⟩] "tok"
        (.response 200 (some ⟨0, [⟨"/a", "/d", "n", 7⟩], 0, 0⟩)) ≠ .indexPanic ∧
    RenameFiles [⟨"/a", "b"⟩] "tok"
        (.response 200 (some ⟨0, [⟨"/a", 7⟩], 0, 0⟩)) ≠ .indexPanic :=
  ⟨C9_batch_indexing_in_bounds.1 [⟨"/a", "/d", "n"⟩] "tok" 200
      ⟨0, [⟨"/a", "/d", "n", 7⟩], 0, 0⟩ (by decide),
   C9_batch_indexing_in_bounds.2.1 [⟨"/a", "/d", "n"⟩] "tok" 200
      ⟨0, [⟨"/a", "/d", "n", 7⟩], 0, 0⟩ (by decide),
   C9_batch_indexing_in_bounds.2.2.1 [⟨"/a", "b"⟩] "tok" 200
      ⟨0, [⟨"/a", 7⟩], 0, 0⟩ (by decide)⟩

/-- Embeds the `filelist` construction loop of `RemoveFiles` in
`pan/move.go`: starting from `"["`, each path is appended as
`"\"" + path + "\""` with a `","` before every path except the first,
and a final `"]"` — plain string concatenation, not JSON encoding. -/
def fileListJSONBody : Nat → List String → String
  | _, [] => ""
  | i, p :: rest =>
    (if 0 < i then "," else "") ++ "\"" ++ p ++ "\"" ++ fileListJSONBody (i + 1) rest

/-- The complete `filelist` form-field value built by `RemoveFiles`. -/
def fileListJSON (filePaths : List String) : String :=
  "[" ++ fileListJSONBody 0 filePaths ++ "]"

/-- Lower-case hexadecimal digit. -/
def hexDigit (n : Nat) : Char :=
  if n < 10 then Char.ofNat (48 + n) else Char.ofNat (87 + n)

/-- Four-digit hexadecimal rendering used by JSON `\uXXXX` escapes. -/
def hex4 (n : Nat) : String :=
  String.mk [hexDigit (n / 4096 % 16), hexDigit (n / 256 % 16),
    hexDigit (n / 16 % 16), hexDigit (n % 16)]

/-- Modelled from the spec side for comparison (the claim's "standard
JSON array encoding"): RFC 8259 string escaping — quotation mark,
reverse solidus and the control characters U+0000..U+001F must be
escaped (shortest escapes for backspace, tab, newline, form feed,
carriage return; `\uXXXX` otherwise); all other characters appear
literally. -/
def jsonEscapeChar (c : Char) : String :=
  if c = '"' then "\\\""
  else if c = '\\' then "\\\\"
  else if c = Char.ofNat 8 then "\\b"
  else if c = Char.ofNat 9 then "\\t"
  else if c = Char.ofNat 10 then "\\n"
  else if c = Char.ofNat 12 then "\\f"
  else if c = Char.ofNat 13 then "\\r"
  else if c.toNat < 32 then "\\u" ++ hex4 c.toNat
  else String.singleton c

/-- Escapes every character of a string body in order. -/
def jsonEscapeCore : List Char → String
  | [] => ""
  | c :: cs => jsonEscapeChar c ++ jsonEscapeCore cs

/-- Standard JSON encoding of a single string. -/
def jsonEncodeString (s : String) : String :=
  "\"" ++ jsonEscapeCore s.data ++ "\""

/-- Standard JSON encoding of the elements of a string array,
comma-separated. -/
def jsonArrayCore : List String → String
  | [] => ""
  | [p] => jsonEncodeString p
  | p :: q :: rest => jsonEncodeString p ++ "," ++ jsonArrayCore (q :: rest)

/-- Standard JSON encoding of a string array. -/
def jsonEncodeStringArray (paths : List String) : String :=
  "[" ++ jsonArrayCore paths ++ "]"

/-- C10: counterexample to the claim as stated.  The path consisting of
a single newline character contains neither a double quote nor a
backslash, yet the constructed `filelist` string embeds the raw newline
while the standard JSON encoding escapes it as `\n` — the two strings
differ. -/
theorem C10_counterexample :
    fileListJSON ["\n"] ≠ jsonEncodeStringArray ["\n"] ∧
    fileListJSON ["\n"] = "[\"\n\"]" ∧
    jsonEncodeStringArray ["\n"] = "[\"\\n\"]" := by
  refine ⟨?_, ?_, ?_⟩ <;> decide

/-- A character that is neither a quote, nor a backslash, nor a control
character is rendered literally by the standard JSON escaper. -/
theorem jsonEscapeChar_clean (c : Char) (h1 : c ≠ '"') (h2 : c ≠ '\\')
    (h3 : 32 ≤ c.toNat) : jsonEscapeChar c = String.singleton c := by
  have hb : c ≠ Char.ofNat 8 := fun hh => by subst hh; exact absurd h3 (by decide)
  have ht : c ≠ Char.ofNat 9 := fun hh => by subst hh; exact absurd h3 (by decide)
  have hn : c ≠ Char.ofNat 10 := fun hh => by subst hh; exact absurd h3 (by decide)
  have hf : c ≠ Char.ofNat 12 := fun hh => by subst hh; exact absurd h3 (by decide)
  have hr : c ≠ Char.ofNat 13 := fun hh => by subst hh; exact absurd h3 (by decide)
  have hu : ¬ c.toNat < 32 := by omega
  rw [jsonEscapeChar, if_neg h1, if_neg h2, if_neg hb, if_neg ht, if_neg hn,
    if_neg hf, if_neg hr, if_neg hu]

/-- A list of clean characters is rendered verbatim by the escaper. -/
theorem jsonEscapeCore_clean (l : List Char)
    (h : ∀ c ∈ l, c ≠ '"' ∧ c ≠ '\\' ∧ 32 ≤ c.toNat) :
    jsonEscapeCore l = String.mk l := by
  induction l with
  | nil => rfl
  | cons c cs ih =>
    obtain ⟨h1, h2, h3⟩ := h c (by simp)
    rw [jsonEscapeCore, jsonEscapeChar_clean c h1 h2 h3,
      ih (fun d hd => h d (by simp [hd]))]
    rfl

/-- A clean string is JSON-encoded by mere quoting. -/
theorem jsonEncodeString_clean (s : String)
    (h : ∀ c ∈ s.data, c ≠ '"' ∧ c ≠ '\\' ∧ 32 ≤ c.toNat) :
    jsonEncodeString s = "\"" ++ s ++ "\"" := by
  rw [jsonEncodeString, jsonEscapeCore_clean s.data h]

/-- The comma-prefixed tail of a JSON array rendering. -/
def jsonArrayTail : List String → String
  | [] => ""
  | p :: rest => "," ++ jsonEncodeString p ++ jsonArrayTail rest

/-- The array-element rendering splits into head plus comma-prefixed
tail. -/
theorem jsonArrayCore_cons (p : String) (rest : List String) :
    jsonArrayCore (p :: rest) = jsonEncodeString p ++ jsonArrayTail rest := by
  induction rest generalizing p with
  | nil =>
    apply String.ext
    simp [jsonArrayCore, jsonArrayTail]
  | cons q rest ih =>
    apply String.ext
    rw [jsonArrayCore, ih q]
    simp [jsonArrayTail]

/-- From index 1 onwards, the Go loop's output is the comma-prefixed
JSON tail, provided all paths are clean. -/
theorem fileListJSONBody_tail (l : List String) :
    ∀ i, 0 < i →
    (∀ p ∈ l, ∀ c ∈ p.data, c ≠ '"' ∧ c ≠ '\\' ∧ 32 ≤ c.toNat) →
    fileListJSONBody i l = jsonArrayTail l := by
  induction l with
  | nil => intro i hi h; rfl
  | cons p rest ih =>
    intro i hi h
    rw [fileListJSONBody, jsonArrayTail, if_pos hi,
      ih (i + 1) (by omega) (fun q hq c hc => h q (by simp [hq]) c hc),
      jsonEncodeString_clean p (fun c hc => h p (by simp) c hc)]
    apply String.ext
    simp

/-- C10 (amended): `RemoveFiles` builds the `filelist` form field by
string concatenation of quoted paths rather than JSON encoding; for
every non-empty list of paths in which no path contains a double quote,
a backslash, or a control character below U+0020, the constructed
string is exactly the standard JSON array encoding of that list. -/
theorem C10_fileListJSON_eq_json (paths : List String) (hne : paths ≠ [])
    (h : ∀ p ∈ paths, ∀ c ∈ p.data, c ≠ '"' ∧ c ≠ '\\' ∧ 32 ≤ c.toNat) :
    fileListJSON paths = jsonEncodeStringArray paths := by
  match paths with
  | [] => exact absurd rfl hne
  | p :: rest =>
    rw [fileListJSON, jsonEncodeStringArray, fileListJSONBody, if_neg (by omega),
      jsonArrayCore_cons p rest,
      fileListJSONBody_tail rest 1 (by omega) (fun q hq c hc => h q (by simp [hq]) c hc),
      jsonEncodeString_clean p (fun c hc => h p (by simp) c hc)]
    apply String.ext
    simp

/-- Witness for C10 (amended) at a concrete input: two ordinary paths
are rendered identically by the Go concatenation and the standard JSON
encoder. -/
theorem C10_fileListJSON_eq_json_witness :
    fileListJSON ["/a/b.txt", "/c d"] = jsonEncodeStringArray ["/a/b.txt", "/c d"] ∧
    fileListJSON ["/a/b.txt", "/c d"] = "[\"/a/b.txt\",\"/c d\"]" :=
  ⟨C10_fileListJSON_eq_json ["/a/b.txt", "/c d"] (by decide) (by decide),
   by decide⟩

/-- Embeds `PrecreateResponse` from `pan/utils.go` (`return_type` 2
means the remote already holds matching content). -/
structure PrecreateResponse where
  errno : Int
  uploadID : String
  blockList : List Int
  requestID : Int
  returnType : Int
deriving DecidableEq

/-- Embeds `CreateFileResponse` from `pan/utils.go` (the fields the
upload path reads: `errno` for the success check and `path` for the
success message). -/
structure CreateFileResponse where
  errno : Int
  path : String
deriving DecidableEq

/-- The requests `UploadFile` can issue, in order: the precreate call,
one slice-transfer call per slice (tagged with its `partseq`), and the
finalize (create) call. -/
inductive UploadStep where
  | precreate
  | sliceUpload (partseq : Nat)
  | createFinal
deriving DecidableEq

/-- Distinct error returns of `UploadFile` in `pan/move.go` (upload
section), as structured values. -/
inductive UploadError where
  | noAccessToken
  | isDirectory
  | invalidRemotePath
  | precreateTransport (msg : String)
  | precreateHTTP (status : Nat)
  | precreateParse
  | precreateErrno (errno : Int)
  | noUploadID
  | sliceTransport (partseq : Nat) (msg : String)
  | sliceHTTP (partseq : Nat) (status : Nat)
  | createTransport (msg : String)
  | createHTTP (status : Nat)
  | createParse
  | createErrno (errno : Int)
deriving DecidableEq

/-- Embeds `EnsureRemoteDirExists` from `pan/utils.go` (also the
`ensureRemoteDirExists` method the upload calls): the remote path must
be absolute, i.e. start with `/` (`strings.HasPrefix(remotePath, "/")`,
stated on the character list). -/
def EnsureRemoteDirExists (remotePath : String) : Bool :=
  match remotePath.data with
  | [] => false
  | c :: _ => c = '/'

/-- Model of Go's `path/filepath.Dir` (an external standard-library
call) restricted to slash-separated paths without redundant separators
or dot segments: everything before the final separator (root stays
`/`), or `.` when the path has no separator.  Only its leading-slash
property is consumed by the embedded check. -/
def goFilepathDir (p : String) : String :=
  match p.data.reverse.dropWhile (fun c => c ≠ '/') with
  | [] => "."
  | [_] => "/"
  | _ :: rest => String.mk rest.reverse

/-- The remote service's responses during one upload: the precreate
response, the response to the `i`-th slice transfer, and the finalize
response.  Only the slice response status is inspected by the Go code,
so the slice payload type is `Unit`. -/
structure UploadEnv where
  precreate : BatchHTTP PrecreateResponse
  slice : Nat → BatchHTTP Unit
  createFile : BatchHTTP CreateFileResponse

/-- Embeds the slice-transfer loop of `UploadFile`: slices are sent
strictly in index order; the first transport error or non-200 status
aborts the loop with the failing index. -/
def uploadSlices (slice : Nat → BatchHTTP Unit) :
    Nat → Nat → Option UploadError × List UploadStep
  | _, 0 => (none, [])
  | i, remaining + 1 =>
    match slice i with
    | .transportError m => (some (.sliceTransport i m), [.sliceUpload i])
    | .response status _ =>
      if status ≠ 200 then (some (.sliceHTTP i status), [.sliceUpload i])
      else
        let rest := uploadSlices slice (i + 1) remaining
        (rest.1, .sliceUpload i :: rest.2)

/-- Embeds `UploadFile` from `pan/move.go`: after the local checks
(access token, not a directory, absolute remote directory) the slice
MD5 list is computed with the 4 MiB slice size; the precreate call is
issued; `return_type = 2` short-circuits with success and no further
requests; otherwise a missing `uploadid` is an error, the slices are
transferred in order, and the create call finalizes.  The second
component of the result lists every request issued, in order. -/
def UploadFile (md5h : List Nat → String) (accessToken : String) (fileBytes : List Nat)
    (isDir : Bool) (remoteFilePath : String) (env : UploadEnv) :
    Except UploadError Unit × List UploadStep :=
  if accessToken = "" then (.error .noAccessToken, [])
  else if isDir then (.error .isDirectory, [])
  else if EnsureRemoteDirExists (goFilepathDir remoteFilePath) = false then
    (.error .invalidRemotePath, [])
  else
    let sliceMD5s := CalculateSliceMD5 md5h (4 * 1024 * 1024) fileBytes
    match env.precreate with
    | .transportError m => (.error (.precreateTransport m), [.precreate])
    | .response status parsed =>
      if status ≠ 200 then (.error (.precreateHTTP status), [.precreate])
      else
        match parsed with
        | none => (.error .precreateParse, [.precreate])
        | some pre =>
          if pre.errno ≠ 0 then (.error (.precreateErrno pre.errno), [.precreate])
          else if pre.returnType = 2 then (.ok (), [.precreate])
          else if pre.uploadID = "" then (.error .noUploadID, [.precreate])
          else
            let slicesOut := uploadSlices env.slice 0 sliceMD5s.length
            match slicesOut.1 with
            | some e => (.error e, .precreate :: slicesOut.2)
            | none =>
              match env.createFile with
              | .transportError m =>
                (.error (.createTransport m), .precreate :: slicesOut.2 ++ [.createFinal])
              | .response cstatus cparsed =>
                if cstatus ≠ 200 then
                  (.error (.createHTTP cstatus), .precreate :: slicesOut.2 ++ [.createFinal])
                else
                  match cparsed with
                  | none => (.error .createParse, .precreate :: slicesOut.2 ++ [.createFinal])
                  | some cr =>
                    if cr.errno ≠ 0 then
                      (.error (.createErrno cr.errno),
                        .precreate :: slicesOut.2 ++ [.createFinal])
                    else (.ok (), .precreate :: slicesOut.2 ++ [.createFinal])

/-- C5: whenever the precreate response reports `return_type = 2` (the
content is already present), `UploadFile` returns success having issued
exactly the single precreate request — zero slice transfers and zero
finalize calls. -/
theorem C5_upload_no_transfer_on_return_type_2 (md5h : List Nat → String) (tok : String)
    (fileBytes : List Nat) (remote : String) (pre : PrecreateResponse)
    (slice : Nat → BatchHTTP Unit) (createFile : BatchHTTP CreateFileResponse)
    (htok : tok ≠ "") (hdir : EnsureRemoteDirExists (goFilepathDir remote) = true)
    (herr : pre.errno = 0) (hrt : pre.returnType = 2) :
    UploadFile md5h tok fileBytes false remote
        ⟨.response 200 (some pre), slice, createFile⟩
      = (.ok (), [.precreate]) := by
  simp [UploadFile, htok, hdir, herr, hrt]

/-- Witness for C5 at a concrete input: uploading a 3-byte file to
`/d/f.txt` when precreate answers `return_type = 2` succeeds after the
precreate request alone. -/
theorem C5_upload_no_transfer_on_return_type_2_witness :
    UploadFile witnessHash "tok" [1, 2, 3] false "/d/f.txt"
        ⟨.response 200 (some ⟨0, "", [], 0, 2⟩),
          fun _ => .response 200 (some ()), .response 200 none⟩
      = (.ok (), [.precreate]) :=
  C5_upload_no_transfer_on_return_type_2 witnessHash "tok" [1, 2, 3] "/d/f.txt"
    ⟨0, "", [], 0, 2⟩ (fun _ => .response 200 (some ())) (.response 200 none)
    (by decide) (by decide) rfl rfl

/-- The fields of a listed `FileInfo` that the walker reads: the entry's
full path and its `isdir` flag (1 for directories). -/
structure WalkEntry where
  path : String
  isDir : Nat
deriving DecidableEq

/-- The remote directory structure as observed by the traversal, one
node per `ListFiles` call: `fail` is a listing error at that directory,
`nil`/`cons` is a successful listing enumerating its entries in order,
each entry carrying the subtree that a recursive call would observe
when the entry is a directory (ignored for plain files). -/
inductive RemoteTree where
  | fail (msg : String)
  | nil
  | cons (entry : WalkEntry) (sub : RemoteTree) (rest : RemoteTree)
deriving DecidableEq

/-- One event of the walker's output, in program order: an entry sent on
the file channel, an error sent on the error channel, or the closing of
the file channel. -/
inductive WalkEvent where
  | entry (e : WalkEntry)
  | errorEvent (msg : String)
  | closed
deriving DecidableEq

/-- Embeds `WalkRecursive` from the repository README: list the path
(here: inspect the node) — on error send the error once and return
(stopping only this branch); otherwise send each entry in order and
recurse into it right away when it is a directory, before moving to the
next sibling.  The result is the sequence of channel sends in program
order of the single walker goroutine (a receptive consumer is assumed,
so sends never block forever). -/
def WalkRecursive : RemoteTree → List WalkEvent
  | .fail m => [.errorEvent m]
  | .nil => []
  | .cons e sub rest =>
    .entry e :: ((if e.isDir = 1 then WalkRecursive sub else []) ++ WalkRecursive rest)

/-- Embeds `Walk` from the repository README: run `WalkRecursive` from
the root in a goroutine and close the file channel (`defer close`) once
it returns. -/
def Walk (t : RemoteTree) : List WalkEvent :=
  WalkRecursive t ++ [.closed]

/-- The tree `/` → [`/a` (file), `/b` (dir) → [`/b/c` (file)]] of the
spec's walk scenario. -/
def walkExampleTree : RemoteTree :=
  .cons ⟨"/a", 0⟩ .nil (.cons ⟨"/b", 1⟩ (.cons ⟨"/b/c", 0⟩ .nil .nil) .nil)

/-- The same tree with an induced listing error at `/b`. -/
def walkErrorTree : RemoteTree :=
  .cons ⟨"/a", 0⟩ .nil (.cons ⟨"/b", 1⟩ (.fail "listing failed") .nil)

/-- The recursive traversal itself never closes the file channel. -/
theorem walkRecursive_count_closed (t : RemoteTree) :
    (WalkRecursive t).count .closed = 0 := by
  induction t with
  | fail m => simp [WalkRecursive]
  | nil => simp [WalkRecursive]
  | cons e sub rest ihsub ihrest =>
    by_cases h : e.isDir = 1 <;>
      simp [WalkRecursive, h, List.count_append, ihsub, ihrest]

/-- C8: the walker emits entries in depth-first pre-order and closes the
entry channel only after the whole traversal: on the example tree the
order is `/a`, `/b`, `/b/c` followed by the close; with an induced
listing error at `/b`, the entry `/a` (and `/b` itself) are still
emitted, exactly one error is emitted, that branch stops, and the close
still happens last.  In general the close event is the last event and
occurs exactly once, and an erroring directory contributes exactly one
error event after its own entry, with the sibling traversal continuing
unchanged. -/
theorem C8_walk_preorder_and_close :
    Walk walkExampleTree
      = [.entry ⟨"/a", 0⟩, .entry ⟨"/b", 1⟩, .entry ⟨"/b/c", 0⟩, .closed] ∧
    Walk walkErrorTree
      = [.entry ⟨"/a", 0⟩, .entry ⟨"/b", 1⟩, .errorEvent "listing failed", .closed] ∧
    (∀ t, (Walk t).getLast? = some .closed) ∧
    (∀ t, (Walk t).count .closed = 1) ∧
    (∀ e m rest, e.isDir = 1 →
      WalkRecursive (.cons e (.fail m) rest)
        = .entry e :: .errorEvent m :: WalkRecursive rest) := by
  refine ⟨by decide, by decide, fun t => ?_, fun t => ?_, fun e m rest h => ?_⟩
  · rw [Walk, List.getLast?_concat]
  · rw [Walk]
    simp [List.count_append, walkRecursive_count_closed t]
  · simp [WalkRecursive, h]

/-- Witness for C8: the general close-last and single-error facts at the
concrete example trees. -/
theorem C8_walk_preorder_and_close_witness :
    (Walk walkExampleTree).getLast? = some .closed ∧
    (Walk walkErrorTree).count .closed = 1 ∧
    WalkRecursive (.cons ⟨"/b", 1⟩ (.fail "boom") (.cons ⟨"/z", 0⟩ .nil .nil))
      = [.entry ⟨"/b", 1⟩, .errorEvent "boom", .entry ⟨"/z", 0⟩] :=
  ⟨C8_walk_preorder_and_close.2.2.1 walkExampleTree,
   C8_walk_preorder_and_close.2.2.2.1 walkErrorTree,
   by
    rw [C8_walk_preorder_and_close.2.2.2.2 ⟨"/b", 1⟩ "boom"
      (.cons ⟨"/z", 0⟩ .nil .nil) rfl]
    decide⟩
